import Mathlib

/-!
Shallow embedding of `src/server.js` (Zoom Phone → FileMaker integration).

The embedding models, directly from the source:
  * the pure formatting helpers (`formatDuration`, JS truthiness helpers);
  * the record-building expressions of the two webhook branches;
  * the FileMaker session state (`fmToken` / `tokenExpiryTime`) and the
    `login` / `logout` methods;
  * the catch-and-retry structure shared by `createRecord` and
    `updateRecord` (HTTP 401 → re-login → recurse), via a fuel-indexed loop;
  * `findRecord`'s treatment of the FileMaker API error code "401"
    ("no records match the request") as an empty result;
  * the `/zoom-webhook` POST handler's control flow: the
    `endpoint.url_validation` short-circuit, signature verification,
    the event switch, the find-then-branch upsert, and the outer
    try/catch that answers 500 on a thrown error.

External collaborators (HMAC-SHA256, `Date` parsing in `formatTimestamp`)
are abstracted as function parameters; the external FileMaker database is
modelled as a record store so that the upsert protocol can be run against it.
-/

/-! ## JS value helpers (truthiness and `||`) -/

/-- Truthiness of a JS string-or-undefined value: `undefined` and `""` are falsy. -/
def truthy : Option String → Bool
  | none => false
  | some s => s ≠ ""

/-- JS `a || b` on string-or-undefined values. -/
def jsOr (a b : Option String) : Option String :=
  if truthy a then a else b

/-- JS `a || d` where `d` is a string literal default (as in `payload.direction || ''`). -/
def jsOrDefault (a : Option String) (d : String) : String :=
  match jsOr a (some d) with
  | some s => s
  | none => d

/-- JS `a || 0` on a number-or-undefined value (`payload.duration || 0`); `0` is falsy. -/
def jsNumOr (a : Option Nat) (d : Nat) : Nat :=
  match a with
  | none => d
  | some n => if n = 0 then d else n

/-! ## Formatting helpers (`formatDuration`, lines 205-213) -/

/-- JS `String.prototype.padStart(len, c)`: left-pad `s` with `c` up to `len`. -/
def padStart (len : Nat) (c : Char) (s : String) : String :=
  String.mk (List.replicate (len - s.length) c) ++ s

/-- Source function `formatDuration(seconds)`, lines 205-213: a falsy
`seconds` (here: `seconds = 0`) yields `"00:00:00"`; otherwise
hours/minutes/seconds are computed by div/mod and each rendered with
`String(x).padStart(2, '0')`. -/
def formatDuration (seconds : Nat) : String :=
  if seconds = 0 then "00:00:00"
  else
    padStart 2 '0' (toString (seconds / 3600)) ++ ":" ++
    padStart 2 '0' (toString (seconds % 3600 / 60)) ++ ":" ++
    padStart 2 '0' (toString (seconds % 60))

/-- Modelled from the spec: a two-digit zero-padded rendering of a numeric
field, used to state the "zero-padded HH:MM:SS" reading independently of the
source's `padStart` mechanism. -/
def twoDigits (k : Nat) : String :=
  (if k < 10 then "0" else "") ++ toString k

/-- Modelled from the spec: "converts a nonnegative integer number of seconds
into zero-padded HH:MM:SS". -/
def hhmmssSpec (n : Nat) : String :=
  twoDigits (n / 3600) ++ ":" ++ twoDigits (n % 3600 / 60) ++ ":" ++ twoDigits (n % 60)

/-! ## Webhook payloads and record data -/

/-- The fields of `body.payload.object` that the handler reads. Absent JS
properties are `none`. -/
structure Payload where
  call_id : Option String
  id : Option String
  duration : Option Nat
  direction : Option String
  end_time : Option String
  start_time : Option String
  date_time : Option String
  caller_number : Option String
  callee_number : Option String
  deriving Repr, DecidableEq

/-- The `recordData` object submitted to FileMaker (lines 270-281 / 285-296).
`denwa_bangou`, `taiou_nichiji` and `joutai` romanize the source's
field names 電話番号, 対応日時 and 状態. -/
structure RecordData where
  call_id : Option String
  call_duration_seconds : Nat
  call_direction : String
  call_end_time : String
  denwa_bangou : String
  taiou_nichiji : String
  joutai : String
  deriving Repr, DecidableEq

/-- The `recordData` literal of the completed/created event family
(lines 270-281). `fmtTs` abstracts `formatTimestamp` (a `Date`-based
formatter; `formatTimestamp(undefined)` is modelled as `fmtTs none`). -/
def buildCompletedRecord (fmtTs : Option String → String) (p : Payload) : RecordData :=
  { call_id := jsOr p.call_id p.id
    call_duration_seconds := jsNumOr p.duration 0
    call_direction := jsOrDefault p.direction ""
    call_end_time := fmtTs p.end_time
    denwa_bangou := jsOrDefault p.caller_number (jsOrDefault p.callee_number "")
    taiou_nichiji := fmtTs (jsOr p.start_time p.date_time)
    joutai := "未対応" }

/-- The `recordData` literal of the `phone.callee_missed` branch
(lines 285-296). -/
def buildMissedRecord (fmtTs : Option String → String) (p : Payload) : RecordData :=
  { call_id := jsOr p.call_id p.id
    call_duration_seconds := 0
    call_direction := "inbound"
    call_end_time := fmtTs p.date_time
    denwa_bangou := jsOrDefault p.caller_number ""
    taiou_nichiji := fmtTs p.date_time
    joutai := "未対応" }

/-! ## Session state, `login`, `logout` (lines 12-13, 23-57, 156-175) -/

/-- The module-level session cell: `fmToken` and `tokenExpiryTime`. -/
structure SessionState where
  fmToken : Option String
  tokenExpiryTime : Option Nat
  deriving Repr, DecidableEq

/-- The lease written by `login` (line 42): `Date.now() + (14 * 60 * 1000)`. -/
def tokenLeaseMs : Nat := 14 * 60 * 1000

/-- The external FileMaker Data API session lifetime the spec refers to:
14 minutes (spec: "a 14-minute external lifetime"). -/
def externalTokenLifetimeMs : Nat := 14 * 60 * 1000

/-- The cron refresh schedule (line 339): `cron.schedule('*/13 * * * *', ...)`. -/
def cronRefreshMinutes : Nat := 13

/-- Source method `login()`, lines 23-50: on a successful credentialed request
with token `tok` it overwrites `fmToken` and sets
`tokenExpiryTime = now + 14*60*1000`; on failure the error is logged and
rethrown (the previous session state `prev` is untouched on that path). -/
def login (_prev : SessionState) (now : Nat) (outcome : Except String String) :
    Except String SessionState :=
  match outcome with
  | .ok tok => .ok { fmToken := some tok, tokenExpiryTime := some (now + tokenLeaseMs) }
  | .error e => .error e

/-- Source method `logout()`, lines 156-175: returns immediately when no token is held;
otherwise performs the remote session deletion and clears `fmToken` and
`tokenExpiryTime` only on its success; on failure the catch block merely logs,
so the local state is left unchanged. It is total (never throws). -/
def logout (st : SessionState) (remoteOutcome : Except String Unit) : SessionState :=
  match st.fmToken with
  | none => st
  | some _ =>
    match remoteOutcome with
    | .ok _ => { fmToken := none, tokenExpiryTime := none }
    | .error _ => st

/-! ## The 401 retry structure of `createRecord` / `updateRecord`
(lines 82-91 and 145-153) -/

/-- The outcome of one attempted FileMaker write (the axios POST/PATCH):
success, an HTTP 401 (`error.response.status === 401`), or any other error. -/
inductive WriteOutcome
  | ok
  | http401
  | otherError
  deriving Repr, DecidableEq

/-- The catch-and-retry loop shared by `createRecord` (lines 59-92) and
`updateRecord` (lines 123-154): attempt `i` runs the request; on success the
response is returned (here: the index `i`, which counts the re-logins that
were performed); on HTTP 401 the code calls `login()` and recurses with no
attempt counter; any other error is logged and rethrown. `login` is taken to
succeed on the retry path. `fuel` bounds the modelled recursion depth:
`none` means the recursion is still running after `fuel` attempts. -/
def authRetryLoop (outcome : Nat → WriteOutcome) : Nat → Nat → Option (Except Unit Nat)
  | 0, _ => none
  | fuel + 1, i =>
    match outcome i with
    | .ok => some (.ok i)
    | .http401 => authRetryLoop outcome fuel (i + 1)
    | .otherError => some (.error ())

/-- Run the write (create or update) from the first attempt. -/
def authRetryRun (outcome : Nat → WriteOutcome) (fuel : Nat) : Option (Except Unit Nat) :=
  authRetryLoop outcome fuel 0

/-! ## `findRecord` (lines 94-121) -/

/-- A FileMaker record reference as returned by `_find`: `recordId`, `modId`,
and the field data. -/
structure DBRecord where
  recordId : Nat
  modId : Nat
  fields : RecordData
  deriving Repr, DecidableEq

/-- The response of the FileMaker `_find` call: either record data, or an API
error carrying `messages[0].code` (FileMaker reports "no records match the
request" as code "401" in the response body). -/
inductive FindResponse
  | ok (recs : List DBRecord)
  | apiError (code : String)
  deriving Repr, DecidableEq

/-- Source method `findRecord(callId)`, lines 94-121: returns the response data on success;
in the catch block, an error whose `response.data.messages[0].code === "401"`
is converted to the empty list, and any other error is rethrown. -/
def findRecord (resp : FindResponse) : Except String (List DBRecord) :=
  match resp with
  | .ok recs => .ok recs
  | .apiError code => if code = "401" then .ok [] else .error code

/-! ## The external FileMaker database, modelled as a record store -/

/-- The external database state: stored records and the next record id. -/
structure DBState where
  records : List DBRecord
  nextId : Nat
  deriving Repr, DecidableEq

/-- The records FileMaker's `_find` matches for the handler's query
`{query: [{call_id: callId}], limit: 1}`: records whose `call_id` field equals
`callId`, truncated to one. -/
def dbFind (db : DBState) (callId : String) : List DBRecord :=
  (db.records.filter (fun r => decide (r.fields.call_id = some callId))).take 1

/-- The external FileMaker server as seen by one webhook request: its record
store, plus fault flags saying whether the create / update HTTP calls fail
(with a non-401 error, i.e. one that the retry logic rethrows). -/
structure FMServer where
  db : DBState
  failCreate : Bool
  failUpdate : Bool
  deriving Repr, DecidableEq

/-- The `_find` response the modelled server produces: FileMaker answers
"no records found" as API error code "401", and otherwise returns the
matching records. -/
def fmFindResp (s : FMServer) (callId : String) : FindResponse :=
  match dbFind s.db callId with
  | [] => .apiError "401"
  | recs => .ok recs

/-- The effect of a successful `createRecord` on the store: a new record with
a fresh `recordId` and `modId` 0 is appended. When `failCreate` is set the
call errors instead. -/
def fmCreate (s : FMServer) (fields : RecordData) : Except Unit FMServer :=
  if s.failCreate then .error ()
  else .ok { s with db := { records := s.db.records ++ [⟨s.db.nextId, 0, fields⟩]
                            nextId := s.db.nextId + 1 } }

/-- The effect of a successful `updateRecord` on the store: the record with
the given `recordId` has its fields replaced and its `modId` bumped. When
`failUpdate` is set the call errors instead. -/
def fmUpdate (s : FMServer) (recordId : Nat) (fields : RecordData) : Except Unit FMServer :=
  if s.failUpdate then .error ()
  else .ok { s with db := { records := s.db.records.map (fun r =>
                              if r.recordId = recordId
                              then { r with modId := r.modId + 1, fields := fields }
                              else r)
                            nextId := s.db.nextId } }

/-! ## Signature verification (lines 180-189) -/

/-- The pieces of the inbound request that `verifyZoomWebhook` reads. -/
structure ZoomRequest where
  timestampHeader : Option String
  signatureHeader : Option String
  rawBody : String
  deriving Repr, DecidableEq

/-- JS template-string interpolation of a possibly-undefined header. -/
def headerStr : Option String → String
  | none => "undefined"
  | some s => s

/-- Source function `verifyZoomWebhook(req)`, lines 180-189: HMAC-SHA256 (abstracted as
`hmac secret message`) over `v0:{timestamp}:{rawBody}`, formatted as
`v0={hex}`, and compared with the `x-zm-signature` header; a missing header
compares unequal. -/
def verifyZoomWebhook (hmac : String → String → String) (secret : String)
    (req : ZoomRequest) : Bool :=
  let message := "v0:" ++ headerStr req.timestampHeader ++ ":" ++ req.rawBody
  let signature := "v0=" ++ hmac secret message
  match req.signatureHeader with
  | some s => signature = s
  | none => false

/-! ## The `/zoom-webhook` POST handler (lines 225-319) -/

/-- The parsed webhook body: the event name, `body.payload.plainToken`
(read by the url_validation branch) and `body.payload.object` (read by the
event switch). -/
structure WebhookBody where
  event : String
  plainToken : String
  payload : Payload
  deriving Repr, DecidableEq

/-- Externally visible steps the handler performs, in order: consulting the
signature verifier, and each outbound FileMaker call. -/
inductive WebAction
  | checkSignature
  | fmFind (callId : String)
  | fmCreateCall (fields : RecordData)
  | fmUpdateCall (recordId : Nat) (fields : RecordData) (modId : Option Nat)
  deriving Repr, DecidableEq

/-- Whether an action is an outbound call to the external database. -/
def WebAction.isDbCall : WebAction → Bool
  | .checkSignature => false
  | _ => true

/-- The HTTP response body: plain text, or the url_validation challenge JSON
`{plainToken, encryptedToken}`. -/
inductive ResponseBody
  | text (s : String)
  | challenge (plainToken encryptedToken : String)
  deriving Repr, DecidableEq

/-- An HTTP response: status code and body (`res.json` responds 200). -/
structure Response where
  status : Nat
  body : ResponseBody
  deriving Repr, DecidableEq

/-- The events of the first `switch` group (lines 258-260). -/
def isCompletedFamily (e : String) : Bool :=
  e == "phone.call_log_created" || e == "phone.caller_call_log_completed" ||
    e == "phone.callee_call_log_completed"

/-- The create arm of the upsert (line 309): `fm.createRecord(recordData)`,
answering 200 "OK" on success; a thrown error reaches the outer catch, which
answers 500 "Internal Server Error" (lines 315-318). `pre` is the trace of
actions already performed in this request. -/
def doCreate (s : FMServer) (recordData : RecordData) (pre : List WebAction) :
    Response × List WebAction × FMServer :=
  match fmCreate s recordData with
  | .ok s2 => (⟨200, .text "OK"⟩, pre ++ [.fmCreateCall recordData], s2)
  | .error _ => (⟨500, .text "Internal Server Error"⟩, pre ++ [.fmCreateCall recordData], s)

/-- The body of the handler's `try` block (lines 247-314), reached after
signature verification: the event switch, the find-then-branch upsert, and
the 200/500 responses. `fmtTs` abstracts `formatTimestamp`. -/
def processVerified (fmtTs : Option String → String) (body : WebhookBody)
    (s : FMServer) : Response × List WebAction × FMServer :=
  if isCompletedFamily body.event then
    let p := body.payload
    let callId := jsOr p.call_id p.id
    let recordData := buildCompletedRecord fmtTs p
    match callId with
    | none =>
      -- falsy callId: the lookup is skipped, the record is still created
      doCreate s recordData []
    | some cid =>
      if cid = "" then doCreate s recordData []
      else
        match findRecord (fmFindResp s cid) with
        | .error _ => (⟨500, .text "Internal Server Error"⟩, [.fmFind cid], s)
        | .ok [] => doCreate s recordData [.fmFind cid]
        | .ok (existing :: _) =>
          match fmUpdate s existing.recordId recordData with
          | .ok s2 =>
            (⟨200, .text "OK"⟩,
              [.fmFind cid, .fmUpdateCall existing.recordId recordData (some existing.modId)], s2)
          | .error _ =>
            (⟨500, .text "Internal Server Error"⟩,
              [.fmFind cid, .fmUpdateCall existing.recordId recordData (some existing.modId)], s)
  else if body.event = "phone.callee_missed" then
    doCreate s (buildMissedRecord fmtTs body.payload) []
  else
    -- unrecognized event: recordData stays {}, no FileMaker call, 200 "OK"
    (⟨200, .text "OK"⟩, [], s)

/-- The `/zoom-webhook` POST handler (lines 225-319): the
`endpoint.url_validation` branch answers the challenge before any
verification; otherwise the signature is verified and a failure is answered
401 "Unauthorized"; otherwise the try block processes the event. -/
def handleZoomWebhook (hmac : String → String → String) (secret : String)
    (fmtTs : Option String → String) (req : ZoomRequest) (body : WebhookBody)
    (s : FMServer) : Response × List WebAction × FMServer :=
  if body.event = "endpoint.url_validation" then
    (⟨200, .challenge body.plainToken (hmac secret body.plainToken)⟩, [], s)
  else if verifyZoomWebhook hmac secret req = false then
    (⟨401, .text "Unauthorized"⟩, [.checkSignature], s)
  else
    match processVerified fmtTs body s with
    | (resp, acts, s2) => (resp, .checkSignature :: acts, s2)

/-! ## Helper lemmas -/

/-- Rendering a number below 100 with `String(k).padStart(2, '0')` agrees with
the spec-side two-digit rendering. -/
theorem padStart_toString_eq_twoDigits : ∀ k, k < 100 → padStart 2 '0' (toString k) = twoDigits k := by
  decide

/-- An event of the completed/created family is not the url_validation event. -/
theorem completedFamily_ne_validation {e : String} (h : isCompletedFamily e = true) :
    e ≠ "endpoint.url_validation" := by
  rcases eq_or_ne e "phone.call_log_created" with h1 | h1
  · subst h1; exact fun hc => absurd hc (by decide)
  rcases eq_or_ne e "phone.caller_call_log_completed" with h2 | h2
  · subst h2; exact fun hc => absurd hc (by decide)
  rcases eq_or_ne e "phone.callee_call_log_completed" with h3 | h3
  · subst h3; exact fun hc => absurd hc (by decide)
  simp [isCompletedFamily, h1, h2, h3] at h

/-- A store with no record carrying the business key yields an empty find. -/
theorem dbFind_nil_of_no_match (db : DBState) (cid : String)
    (h : ∀ r ∈ db.records, r.fields.call_id ≠ some cid) : dbFind db cid = [] := by
  unfold dbFind
  have : db.records.filter (fun r => decide (r.fields.call_id = some cid)) = [] := by
    rw [List.filter_eq_nil_iff]
    intro r hr
    simp [h r hr]
  rw [this]
  rfl

/-- The FileMaker server state after a successful create of `rec`. -/
def afterCreate (s : FMServer) (rec : RecordData) : FMServer :=
  { s with db := { records := s.db.records ++ [⟨s.db.nextId, 0, rec⟩]
                   nextId := s.db.nextId + 1 } }

/-- The FileMaker server state after a successful update of the record with
id `rid` to fields `rec`. -/
def afterUpdate (s : FMServer) (rid : Nat) (rec : RecordData) : FMServer :=
  { s with db := { records := s.db.records.map (fun r =>
                     if r.recordId = rid
                     then { r with modId := r.modId + 1, fields := rec }
                     else r)
                   nextId := s.db.nextId } }

/-- On a completed-family event with a truthy business key that matches no
stored record, the try block performs a find and then a create, and answers
200 "OK". -/
theorem processVerified_create (fmtTs : Option String → String) (body : WebhookBody)
    (s : FMServer) (cid : String)
    (hev : isCompletedFamily body.event = true)
    (hcid : jsOr body.payload.call_id body.payload.id = some cid)
    (hne : cid ≠ "")
    (hfind : dbFind s.db cid = [])
    (hcf : s.failCreate = false) :
    processVerified fmtTs body s =
      (⟨200, .text "OK"⟩,
       [.fmFind cid, .fmCreateCall (buildCompletedRecord fmtTs body.payload)],
       afterCreate s (buildCompletedRecord fmtTs body.payload)) := by
  unfold processVerified
  rw [hev]
  simp only [if_true]
  rw [hcid]
  simp only [hne, if_false, if_neg hne]
  unfold fmFindResp
  rw [hfind]
  unfold findRecord doCreate fmCreate afterCreate
  rw [hcf]
  simp

/-- On a completed-family event with a truthy business key whose lookup finds
`existing`, the try block performs a find and then an update carrying the
record id and modification token, and answers 200 "OK". -/
theorem processVerified_update (fmtTs : Option String → String) (body : WebhookBody)
    (s : FMServer) (cid : String) (existing : DBRecord)
    (hev : isCompletedFamily body.event = true)
    (hcid : jsOr body.payload.call_id body.payload.id = some cid)
    (hne : cid ≠ "")
    (hfind : dbFind s.db cid = [existing])
    (huf : s.failUpdate = false) :
    processVerified fmtTs body s =
      (⟨200, .text "OK"⟩,
       [.fmFind cid,
        .fmUpdateCall existing.recordId (buildCompletedRecord fmtTs body.payload)
          (some existing.modId)],
       afterUpdate s existing.recordId (buildCompletedRecord fmtTs body.payload)) := by
  unfold processVerified
  rw [hev]
  simp only [if_true]
  rw [hcid]
  simp only [if_neg hne]
  unfold fmFindResp
  rw [hfind]
  unfold findRecord fmUpdate afterUpdate
  rw [huf]
  simp

/-- For a non-validation event that passes signature verification, the handler
is the try block with the verification step recorded in front. -/
theorem handle_verified (hmac : String → String → String) (secret : String)
    (fmtTs : Option String → String) (req : ZoomRequest) (body : WebhookBody)
    (s : FMServer)
    (hnv : body.event ≠ "endpoint.url_validation")
    (hver : verifyZoomWebhook hmac secret req = true) :
    handleZoomWebhook hmac secret fmtTs req body s =
      ((processVerified fmtTs body s).1,
       .checkSignature :: (processVerified fmtTs body s).2.1,
       (processVerified fmtTs body s).2.2) := by
  unfold handleZoomWebhook
  rw [if_neg hnv, hver]
  simp

/-- Mapping a function that fixes every element of a list is the identity. -/
theorem map_fix {α : Type} {f : α → α} {l : List α} (h : ∀ a ∈ l, f a = a) :
    l.map f = l := by
  induction l with
  | nil => rfl
  | cons a t ih =>
    simp only [List.map_cons]
    rw [h a (List.mem_cons_self a t), ih (fun b hb => h b (List.mem_cons_of_mem a hb))]

/-- C2: delivering the same call-completed event twice sequentially against a
well-formed external database that initially holds no record with the event's
call_id results in exactly one create call (first delivery: find, then
create) followed by one update call (second delivery: find, then update of
the created record, carrying its modification token), and leaves exactly one
record with that call_id in the store. -/
theorem C2_duplicate_delivery (hmac : String → String → String) (secret : String)
    (fmtTs : Option String → String) (req : ZoomRequest) (body : WebhookBody)
    (s0 : FMServer) (cid : String)
    (hev : isCompletedFamily body.event = true)
    (hver : verifyZoomWebhook hmac secret req = true)
    (hcid : jsOr body.payload.call_id body.payload.id = some cid)
    (hne : cid ≠ "")
    (hno : ∀ r ∈ s0.db.records, r.fields.call_id ≠ some cid)
    (hwf : ∀ r ∈ s0.db.records, r.recordId < s0.db.nextId)
    (hcf : s0.failCreate = false)
    (huf : s0.failUpdate = false) :
    (handleZoomWebhook hmac secret fmtTs req body s0).2.1 =
      [.checkSignature, .fmFind cid,
       .fmCreateCall (buildCompletedRecord fmtTs body.payload)] ∧
    (handleZoomWebhook hmac secret fmtTs req body s0).1 = ⟨200, .text "OK"⟩ ∧
    (handleZoomWebhook hmac secret fmtTs req body
        (handleZoomWebhook hmac secret fmtTs req body s0).2.2).2.1 =
      [.checkSignature, .fmFind cid,
       .fmUpdateCall s0.db.nextId (buildCompletedRecord fmtTs body.payload) (some 0)] ∧
    (handleZoomWebhook hmac secret fmtTs req body
        (handleZoomWebhook hmac secret fmtTs req body s0).2.2).1 = ⟨200, .text "OK"⟩ ∧
    (handleZoomWebhook hmac secret fmtTs req body
        (handleZoomWebhook hmac secret fmtTs req body s0).2.2).2.2.db.records.countP
      (fun r => decide (r.fields.call_id = some cid)) = 1 := by
  have hnv := completedFamily_ne_validation hev
  have hrec_cid : (buildCompletedRecord fmtTs body.payload).call_id = some cid := by
    simp [buildCompletedRecord, hcid]
  have hfind1 : dbFind s0.db cid = [] := dbFind_nil_of_no_match _ _ hno
  have h1 : handleZoomWebhook hmac secret fmtTs req body s0 =
      (⟨200, .text "OK"⟩,
       [.checkSignature, .fmFind cid,
        .fmCreateCall (buildCompletedRecord fmtTs body.payload)],
       afterCreate s0 (buildCompletedRecord fmtTs body.payload)) := by
    rw [handle_verified hmac secret fmtTs req body s0 hnv hver,
        processVerified_create fmtTs body s0 cid hev hcid hne hfind1 hcf]
  have hfind2 : dbFind (afterCreate s0 (buildCompletedRecord fmtTs body.payload)).db cid =
      [⟨s0.db.nextId, 0, buildCompletedRecord fmtTs body.payload⟩] := by
    unfold afterCreate dbFind
    simp only [List.filter_append]
    have hl : s0.db.records.filter (fun r => decide (r.fields.call_id = some cid)) = [] := by
      rw [List.filter_eq_nil_iff]
      intro r hr
      simp [hno r hr]
    rw [hl]
    simp [hrec_cid]
  have h2 : handleZoomWebhook hmac secret fmtTs req body
        (afterCreate s0 (buildCompletedRecord fmtTs body.payload)) =
      (⟨200, .text "OK"⟩,
       [.checkSignature, .fmFind cid,
        .fmUpdateCall s0.db.nextId (buildCompletedRecord fmtTs body.payload) (some 0)],
       afterUpdate (afterCreate s0 (buildCompletedRecord fmtTs body.payload))
         s0.db.nextId (buildCompletedRecord fmtTs body.payload)) := by
    rw [handle_verified hmac secret fmtTs req body _ hnv hver,
        processVerified_update fmtTs body _ cid
          ⟨s0.db.nextId, 0, buildCompletedRecord fmtTs body.payload⟩ hev hcid hne hfind2 huf]
  have hcount : (afterUpdate (afterCreate s0 (buildCompletedRecord fmtTs body.payload))
        s0.db.nextId (buildCompletedRecord fmtTs body.payload)).db.records.countP
      (fun r => decide (r.fields.call_id = some cid)) = 1 := by
    unfold afterUpdate afterCreate
    simp only [List.map_append, List.countP_append]
    have hmap : s0.db.records.map (fun r =>
        if r.recordId = s0.db.nextId
        then { r with modId := r.modId + 1, fields := buildCompletedRecord fmtTs body.payload }
        else r) = s0.db.records := by
      apply map_fix
      intro r hr
      rw [if_neg (Nat.ne_of_lt (hwf r hr))]
    rw [hmap]
    have hz : s0.db.records.countP (fun r => decide (r.fields.call_id = some cid)) = 0 := by
      rw [List.countP_eq_zero]
      intro r hr
      simp [hno r hr]
    rw [hz]
    simp [hrec_cid]
  refine ⟨?_, ?_, ?_, ?_, ?_⟩ <;> simp [h1, h2, hcount]

/-- Stepping the retry loop past an HTTP 401 re-logins and re-attempts. -/
theorem authRetryLoop_401 (outcome : Nat → WriteOutcome) (fuel i : Nat)
    (h : outcome i = .http401) :
    authRetryLoop outcome (fuel + 1) i = authRetryLoop outcome fuel (i + 1) := by
  simp only [authRetryLoop]
  rw [h]

/-- The try block on a callee_missed event: no lookup, one create, 200 "OK". -/
theorem processVerified_missed (fmtTs : Option String → String) (body : WebhookBody)
    (s : FMServer)
    (hev : body.event = "phone.callee_missed")
    (hcf : s.failCreate = false) :
    processVerified fmtTs body s =
      (⟨200, .text "OK"⟩, [.fmCreateCall (buildMissedRecord fmtTs body.payload)],
       afterCreate s (buildMissedRecord fmtTs body.payload)) := by
  unfold processVerified
  rw [hev]
  rw [if_neg (by decide : ¬ (isCompletedFamily "phone.callee_missed" = true))]
  rw [if_pos rfl]
  unfold doCreate fmCreate afterCreate
  rw [hcf]
  simp

/-- C1: the claim asserts the 401-retry is bounded at one extra attempt, a
second consecutive authorization failure propagating an error. The code
instead recurses on every HTTP 401 with no attempt counter: after two
consecutive 401s (two re-logins) a third attempt is still made and can
succeed, and under persistent 401s the recursion never resolves. -/
theorem C1_counterexample :
    authRetryRun (fun n => if n < 2 then WriteOutcome.http401 else .ok) 10 =
      some (.ok 2) ∧
    authRetryRun (fun _ => WriteOutcome.http401) 50 = none := by
  exact ⟨rfl, rfl⟩

/-- C1 (amended): on every authorization failure (external 401) the code
re-logins and retries the operation recursively with no bound: a run of `k`
consecutive 401s followed by a success resolves successfully after `k`
re-logins; under persistent 401s the recursion never resolves within any
fuel; a non-authorization error propagates immediately. -/
theorem C1_amended_unbounded :
    (∀ fuel, authRetryRun (fun _ => WriteOutcome.http401) fuel = none) ∧
    (∀ k fuel, k < fuel →
      authRetryRun (fun n => if n < k then WriteOutcome.http401 else .ok) fuel =
        some (.ok k)) ∧
    (∀ outcome : Nat → WriteOutcome, ∀ fuel i, outcome i = .otherError →
      authRetryLoop outcome (fuel + 1) i = some (.error ())) := by
  refine ⟨?_, ?_, ?_⟩
  · have aux : ∀ fuel i, authRetryLoop (fun _ => WriteOutcome.http401) fuel i = none := by
      intro fuel
      induction fuel with
      | zero => intro i; rfl
      | succ f ih =>
        intro i
        rw [authRetryLoop_401 _ _ _ rfl]
        exact ih (i + 1)
    exact fun fuel => aux fuel 0
  · have aux : ∀ fuel i k, i ≤ k → k - i < fuel →
        authRetryLoop (fun n => if n < k then WriteOutcome.http401 else .ok) fuel i =
          some (.ok k) := by
      intro fuel
      induction fuel with
      | zero => intro i k _ h; omega
      | succ f ih =>
        intro i k hik h
        by_cases hlt : i < k
        · rw [authRetryLoop_401 _ _ _ (by simp [hlt])]
          exact ih (i + 1) k (by omega) (by omega)
        · have hi : i = k := by omega
          subst hi
          simp only [authRetryLoop]
          rw [if_neg hlt]
    exact fun k fuel h => aux fuel 0 k (by omega) (by omega)
  · intro outcome fuel i h
    simp only [authRetryLoop]
    rw [h]

/-- C1 (amended) witness at concrete inputs. -/
theorem C1_amended_witness :
    authRetryRun (fun _ => WriteOutcome.http401) 5 = none ∧
    authRetryRun (fun n => if n < 1 then WriteOutcome.http401 else .ok) 3 =
      some (.ok 1) ∧
    authRetryLoop (fun _ => WriteOutcome.otherError) 1 0 = some (.error ()) :=
  ⟨C1_amended_unbounded.1 5, C1_amended_unbounded.2.1 1 3 (by decide),
   C1_amended_unbounded.2.2 _ 0 0 rfl⟩

/-- C3: a non-validation request whose signature verification fails is
answered 401 "Unauthorized"; the only step taken is the verification itself,
no FileMaker call is made, and the external database is untouched. -/
theorem C3_reject_unverified (hmac : String → String → String) (secret : String)
    (fmtTs : Option String → String) (req : ZoomRequest) (body : WebhookBody)
    (s : FMServer)
    (hnv : body.event ≠ "endpoint.url_validation")
    (hver : verifyZoomWebhook hmac secret req = false) :
    handleZoomWebhook hmac secret fmtTs req body s =
      (⟨401, .text "Unauthorized"⟩, [.checkSignature], s) ∧
    (handleZoomWebhook hmac secret fmtTs req body s).2.1.filter WebAction.isDbCall = [] := by
  have h : handleZoomWebhook hmac secret fmtTs req body s =
      (⟨401, .text "Unauthorized"⟩, [.checkSignature], s) := by
    unfold handleZoomWebhook
    rw [if_neg hnv, hver]
    simp
  exact ⟨h, by rw [h]; rfl⟩

/-- C3 witness: a completed-call event with a wrong signature header. -/
theorem C3_witness :
    handleZoomWebhook (fun _ _ => "H") "sec" (fun _ => "")
        ⟨some "123", some "v0=WRONG", "b"⟩
        ⟨"phone.call_log_created", "",
         ⟨some "c1", none, none, none, none, none, none, none, none⟩⟩
        ⟨⟨[], 0⟩, false, false⟩ =
      (⟨401, .text "Unauthorized"⟩, [.checkSignature], ⟨⟨[], 0⟩, false, false⟩) :=
  (C3_reject_unverified _ _ _ _ _ _ (by decide) (by decide)).1

/-- C5: the claim asserts a lease strictly below the external 14-minute token
lifetime (13 minutes). The code's lease (line 42) is 14 minutes — equal to,
not strictly below, the external lifetime, and not 13 minutes; a successful
login at time 0 therefore sets the expiry a full 14 minutes out. -/
theorem C5_counterexample :
    tokenLeaseMs = externalTokenLifetimeMs ∧
    ¬ tokenLeaseMs < externalTokenLifetimeMs ∧
    tokenLeaseMs ≠ 13 * 60 * 1000 ∧
    login ⟨none, none⟩ 0 (.ok "tok") =
      .ok ⟨some "tok", some (14 * 60 * 1000)⟩ := by
  refine ⟨rfl, by decide, by decide, rfl⟩

/-- C5 (amended): every successful login stores the token and sets the expiry
to the login time plus a fixed 14-minute lease — equal to the external
system's 14-minute token lifetime, not strictly less; the 13-minute figure is
the separate cron refresh schedule, not the lease. -/
theorem C5_amended_lease :
    (∀ prev : SessionState, ∀ now : Nat, ∀ tok : String,
      login prev now (.ok tok) =
        .ok ⟨some tok, some (now + tokenLeaseMs)⟩) ∧
    tokenLeaseMs = 14 * 60 * 1000 ∧
    tokenLeaseMs = externalTokenLifetimeMs ∧
    cronRefreshMinutes = 13 := by
  exact ⟨fun _ _ _ => rfl, rfl, rfl, rfl⟩

/-- C6: the claim asserts logout invalidates the local session regardless of
the remote call's outcome. When the remote session deletion fails, the catch
block only logs: the stored token and expiry are left in place. -/
theorem C6_counterexample :
    logout ⟨some "tok", some 1⟩ (.error "network down") = ⟨some "tok", some 1⟩ ∧
    (logout ⟨some "tok", some 1⟩ (.error "network down")).fmToken ≠ none := by
  exact ⟨rfl, by decide⟩

/-- C6 (amended): logout never throws (it is total and swallows the remote
error), but it clears the stored token and expiry only when the remote
session deletion succeeds; on a remote failure the local session state is
left unchanged, and with no stored token it does nothing. -/
theorem C6_amended_logout :
    (∀ tok : String, ∀ exp : Option Nat, ∀ e : String,
      logout ⟨some tok, exp⟩ (.error e) = ⟨some tok, exp⟩) ∧
    (∀ tok : String, ∀ exp : Option Nat,
      logout ⟨some tok, exp⟩ (.ok ()) = ⟨none, none⟩) ∧
    (∀ exp : Option Nat, ∀ out : Except String Unit,
      logout ⟨none, exp⟩ out = ⟨none, exp⟩) := by
  exact ⟨fun _ _ _ => rfl, fun _ _ => rfl, fun _ _ => rfl⟩

/-- C7: an endpoint.url_validation request — whatever its signature headers,
which are never consulted — is answered 200 with the plain token and its
keyed digest, with an empty action trace: no signature verification step and
no call to the external database, whose state is unchanged. -/
theorem C7_url_validation (hmac : String → String → String) (secret : String)
    (fmtTs : Option String → String) (req : ZoomRequest) (body : WebhookBody)
    (s : FMServer)
    (hev : body.event = "endpoint.url_validation") :
    handleZoomWebhook hmac secret fmtTs req body s =
      (⟨200, .challenge body.plainToken (hmac secret body.plainToken)⟩, [], s) := by
  unfold handleZoomWebhook
  rw [if_pos hev]

/-- C7 witness: a validation request with missing signature headers. -/
theorem C7_witness :
    handleZoomWebhook (fun _ t => t ++ "-mac") "sec" (fun _ => "")
        ⟨none, none, "b"⟩
        ⟨"endpoint.url_validation", "ptok",
         ⟨none, none, none, none, none, none, none, none, none⟩⟩
        ⟨⟨[], 0⟩, false, false⟩ =
      (⟨200, .challenge "ptok" "ptok-mac"⟩, [], ⟨⟨[], 0⟩, false, false⟩) :=
  C7_url_validation _ _ _ _ _ _ rfl

/-- C9: the duration formatter renders 65 seconds as the fixed-width string
"00:01:05", and on every duration below 100 hours it produces the zero-padded
HH:MM:SS rendering (each of hours, minutes, seconds zero-padded to two
digits). -/
theorem C9_formatDuration :
    formatDuration 65 = "00:01:05" ∧
    ∀ n : Nat, n < 360000 → formatDuration n = hhmmssSpec n := by
  refine ⟨by decide, ?_⟩
  intro n h
  by_cases h0 : n = 0
  · subst h0; decide
  · unfold formatDuration hhmmssSpec
    rw [if_neg h0]
    rw [padStart_toString_eq_twoDigits _ (by omega : n / 3600 < 100),
        padStart_toString_eq_twoDigits _ (by omega : n % 3600 / 60 < 100),
        padStart_toString_eq_twoDigits _ (by omega : n % 60 < 100)]

/-- C9 witness at the spec's concrete input. -/
theorem C9_witness :
    formatDuration 65 = "00:01:05" ∧ formatDuration 65 = hhmmssSpec 65 :=
  ⟨C9_formatDuration.1, C9_formatDuration.2 65 (by decide)⟩

/-- C10: the record built on the phone.callee_missed branch carries the
formatted payload date_time as its call_end_time, duration 0, and direction
"inbound"; processing such an event submits exactly that record to the
external database via a create. -/
theorem C10_missed_fields (fmtTs : Option String → String) (p : Payload) :
    (buildMissedRecord fmtTs p).call_end_time = fmtTs p.date_time ∧
    (buildMissedRecord fmtTs p).call_duration_seconds = 0 ∧
    (buildMissedRecord fmtTs p).call_direction = "inbound" ∧
    (∀ body : WebhookBody, ∀ s : FMServer,
      body.event = "phone.callee_missed" → body.payload = p →
      s.failCreate = false →
      (processVerified fmtTs body s).2.1 = [.fmCreateCall (buildMissedRecord fmtTs p)] ∧
      (processVerified fmtTs body s).2.2 = afterCreate s (buildMissedRecord fmtTs p)) := by
  refine ⟨rfl, rfl, rfl, ?_⟩
  intro body s hev hp hcf
  rw [processVerified_missed fmtTs body s hev hcf, hp]
  exact ⟨rfl, rfl⟩

/-- C10 witness: a concrete missed-call payload. -/
theorem C10_witness :
    (buildMissedRecord (fun o => headerStr o)
        ⟨some "c9", none, none, none, none, none, some "2024-01-01T00:00:00Z",
         some "555", none⟩).call_end_time = "2024-01-01T00:00:00Z" ∧
    (processVerified (fun o => headerStr o)
        ⟨"phone.callee_missed", "",
         ⟨some "c9", none, none, none, none, none, some "2024-01-01T00:00:00Z",
          some "555", none⟩⟩
        ⟨⟨[], 0⟩, false, false⟩).2.1 =
      [.fmCreateCall (buildMissedRecord (fun o => headerStr o)
        ⟨some "c9", none, none, none, none, none, some "2024-01-01T00:00:00Z",
         some "555", none⟩)] :=
  ⟨(C10_missed_fields _ _).1,
   ((C10_missed_fields _ _).2.2.2 _ _ rfl rfl rfl).1⟩

/-- On a completed-family event whose lookup found nothing, a failing create
reaches the outer catch: 500 "Internal Server Error", store unchanged. -/
theorem processVerified_create_fail (fmtTs : Option String → String)
    (body : WebhookBody) (s : FMServer) (cid : String)
    (hev : isCompletedFamily body.event = true)
    (hcid : jsOr body.payload.call_id body.payload.id = some cid)
    (hne : cid ≠ "")
    (hfind : dbFind s.db cid = [])
    (hcf : s.failCreate = true) :
    processVerified fmtTs body s =
      (⟨500, .text "Internal Server Error"⟩,
       [.fmFind cid, .fmCreateCall (buildCompletedRecord fmtTs body.payload)], s) := by
  unfold processVerified
  rw [hev]
  simp only [if_true]
  rw [hcid]
  simp only [if_neg hne]
  unfold fmFindResp
  rw [hfind]
  unfold findRecord doCreate fmCreate
  rw [hcf]
  simp

/-- On a completed-family event whose lookup found a record, a failing update
reaches the outer catch: 500 "Internal Server Error", store unchanged. -/
theorem processVerified_update_fail (fmtTs : Option String → String)
    (body : WebhookBody) (s : FMServer) (cid : String) (existing : DBRecord)
    (hev : isCompletedFamily body.event = true)
    (hcid : jsOr body.payload.call_id body.payload.id = some cid)
    (hne : cid ≠ "")
    (hfind : dbFind s.db cid = [existing])
    (huf : s.failUpdate = true) :
    processVerified fmtTs body s =
      (⟨500, .text "Internal Server Error"⟩,
       [.fmFind cid,
        .fmUpdateCall existing.recordId (buildCompletedRecord fmtTs body.payload)
          (some existing.modId)], s) := by
  unfold processVerified
  rw [hev]
  simp only [if_true]
  rw [hcid]
  simp only [if_neg hne]
  unfold fmFindResp
  rw [hfind]
  unfold findRecord fmUpdate
  rw [huf]
  simp

/-- C4: the claim asserts that a write failure after a successful lookup is
still answered with a success status. At a concrete webhook whose create is
rejected after the lookup succeeded (reporting no records), the outer catch
answers 500 "Internal Server Error" — not a success status. -/
theorem C4_counterexample :
    (handleZoomWebhook (fun _ _ => "H") "sec" (fun _ => "")
        ⟨some "123", some "v0=H", "b"⟩
        ⟨"phone.call_log_created", "",
         ⟨some "c1", none, none, none, none, none, none, none, none⟩⟩
        ⟨⟨[], 0⟩, true, false⟩).1 =
      ⟨500, .text "Internal Server Error"⟩ ∧
    (500 : Nat) ≠ 200 := by
  exact ⟨by decide, by decide⟩

/-- C4 (amended): when the external database write fails after a successful
lookup — a rejected create after a no-match lookup, or a rejected update
after a match — the error propagates to the request boundary and the service
answers the webhook with 500 "Internal Server Error" (the failure is not
converted into a success response); the store is left unchanged. -/
theorem C4_amended_write_failure (hmac : String → String → String) (secret : String)
    (fmtTs : Option String → String) (req : ZoomRequest) (body : WebhookBody)
    (s : FMServer) (cid : String)
    (hev : isCompletedFamily body.event = true)
    (hver : verifyZoomWebhook hmac secret req = true)
    (hcid : jsOr body.payload.call_id body.payload.id = some cid)
    (hne : cid ≠ "") :
    (dbFind s.db cid = [] → s.failCreate = true →
      handleZoomWebhook hmac secret fmtTs req body s =
        (⟨500, .text "Internal Server Error"⟩,
         [.checkSignature, .fmFind cid,
          .fmCreateCall (buildCompletedRecord fmtTs body.payload)], s)) ∧
    (∀ existing : DBRecord, dbFind s.db cid = [existing] → s.failUpdate = true →
      handleZoomWebhook hmac secret fmtTs req body s =
        (⟨500, .text "Internal Server Error"⟩,
         [.checkSignature, .fmFind cid,
          .fmUpdateCall existing.recordId (buildCompletedRecord fmtTs body.payload)
            (some existing.modId)], s)) := by
  have hnv := completedFamily_ne_validation hev
  constructor
  · intro hfind hcf
    rw [handle_verified hmac secret fmtTs req body s hnv hver,
        processVerified_create_fail fmtTs body s cid hev hcid hne hfind hcf]
  · intro existing hfind huf
    rw [handle_verified hmac secret fmtTs req body s hnv hver,
        processVerified_update_fail fmtTs body s cid existing hev hcid hne hfind huf]

/-- C4 (amended) witness: the rejected-create case at concrete inputs. -/
theorem C4_amended_witness :
    handleZoomWebhook (fun _ _ => "H") "sec" (fun _ => "")
        ⟨some "123", some "v0=H", "b"⟩
        ⟨"phone.call_log_created", "",
         ⟨some "c1", none, none, none, none, none, none, none, none⟩⟩
        ⟨⟨[], 0⟩, true, false⟩ =
      (⟨500, .text "Internal Server Error"⟩,
       [.checkSignature, .fmFind "c1",
        .fmCreateCall (buildCompletedRecord (fun _ => "")
          ⟨some "c1", none, none, none, none, none, none, none, none⟩)],
       ⟨⟨[], 0⟩, true, false⟩) :=
  (C4_amended_write_failure _ _ _ _ _ _ _ (by decide) (by decide) (by decide)
      (by decide)).1 (by decide) rfl

/-- C8: when the external system answers the lookup with error code "401"
("no records match the request") — which the modelled store does exactly when
no record carries the business key — findRecord returns the empty list
rather than an error, and the upsert then takes the create branch. -/
theorem C8_not_found_empty (s : FMServer) (cid : String)
    (hfind : dbFind s.db cid = []) :
    fmFindResp s cid = .apiError "401" ∧
    findRecord (fmFindResp s cid) = .ok [] ∧
    findRecord (FindResponse.apiError "401") = .ok [] ∧
    (∀ fmtTs : Option String → String, ∀ body : WebhookBody,
      isCompletedFamily body.event = true →
      jsOr body.payload.call_id body.payload.id = some cid →
      cid ≠ "" →
      s.failCreate = false →
      (processVerified fmtTs body s).2.1 =
        [.fmFind cid, .fmCreateCall (buildCompletedRecord fmtTs body.payload)]) := by
  have h1 : fmFindResp s cid = .apiError "401" := by
    unfold fmFindResp
    rw [hfind]
  refine ⟨h1, by rw [h1]; rfl, rfl, ?_⟩
  intro fmtTs body hev hcid hne hcf
  rw [processVerified_create fmtTs body s cid hev hcid hne hfind hcf]

/-- C8 witness: an empty store and a concrete completed-call event. -/
theorem C8_witness :
    findRecord (fmFindResp ⟨⟨[], 0⟩, false, false⟩ "c1") = .ok [] ∧
    (processVerified (fun _ => "")
        ⟨"phone.call_log_created", "",
         ⟨some "c1", none, none, none, none, none, none, none, none⟩⟩
        ⟨⟨[], 0⟩, false, false⟩).2.1 =
      [.fmFind "c1", .fmCreateCall (buildCompletedRecord (fun _ => "")
        ⟨some "c1", none, none, none, none, none, none, none, none⟩)] :=
  ⟨(C8_not_found_empty _ _ (by decide)).2.1,
   (C8_not_found_empty _ _ (by decide)).2.2.2 _ _ (by decide) (by decide)
     (by decide) rfl⟩

/-- C2 witness: the same completed-call event delivered twice into an empty
store. -/
theorem C2_witness :
    (handleZoomWebhook (fun _ _ => "H") "sec" (fun _ => "")
        ⟨some "123", some "v0=H", "b"⟩
        ⟨"phone.caller_call_log_completed", "",
         ⟨some "c1", none, some 65, some "inbound", none, none, none, some "555", none⟩⟩
        ⟨⟨[], 0⟩, false, false⟩).2.1 =
      [.checkSignature, .fmFind "c1",
       .fmCreateCall (buildCompletedRecord (fun _ => "")
         ⟨some "c1", none, some 65, some "inbound", none, none, none, some "555", none⟩)] ∧
    (handleZoomWebhook (fun _ _ => "H") "sec" (fun _ => "")
        ⟨some "123", some "v0=H", "b"⟩
        ⟨"phone.caller_call_log_completed", "",
         ⟨some "c1", none, some 65, some "inbound", none, none, none, some "555", none⟩⟩
        ⟨⟨[], 0⟩, false, false⟩).1 = ⟨200, .text "OK"⟩ ∧
    (handleZoomWebhook (fun _ _ => "H") "sec" (fun _ => "")
        ⟨some "123", some "v0=H", "b"⟩
        ⟨"phone.caller_call_log_completed", "",
         ⟨some "c1", none, some 65, some "inbound", none, none, none, some "555", none⟩⟩
        (handleZoomWebhook (fun _ _ => "H") "sec" (fun _ => "")
          ⟨some "123", some "v0=H", "b"⟩
          ⟨"phone.caller_call_log_completed", "",
           ⟨some "c1", none, some 65, some "inbound", none, none, none, some "555", none⟩⟩
          ⟨⟨[], 0⟩, false, false⟩).2.2).2.1 =
      [.checkSignature, .fmFind "c1",
       .fmUpdateCall 0 (buildCompletedRecord (fun _ => "")
         ⟨some "c1", none, some 65, some "inbound", none, none, none, some "555", none⟩)
         (some 0)] ∧
    (handleZoomWebhook (fun _ _ => "H") "sec" (fun _ => "")
        ⟨some "123", some "v0=H", "b"⟩
        ⟨"phone.caller_call_log_completed", "",
         ⟨some "c1", none, some 65, some "inbound", none, none, none, some "555", none⟩⟩
        (handleZoomWebhook (fun _ _ => "H") "sec" (fun _ => "")
          ⟨some "123", some "v0=H", "b"⟩
          ⟨"phone.caller_call_log_completed", "",
           ⟨some "c1", none, some 65, some "inbound", none, none, none, some "555", none⟩⟩
          ⟨⟨[], 0⟩, false, false⟩).2.2).1 = ⟨200, .text "OK"⟩ ∧
    (handleZoomWebhook (fun _ _ => "H") "sec" (fun _ => "")
        ⟨some "123", some "v0=H", "b"⟩
        ⟨"phone.caller_call_log_completed", "",
         ⟨some "c1", none, some 65, some "inbound", none, none, none, some "555", none⟩⟩
        (handleZoomWebhook (fun _ _ => "H") "sec" (fun _ => "")
          ⟨some "123", some "v0=H", "b"⟩
          ⟨"phone.caller_call_log_completed", "",
           ⟨some "c1", none, some 65, some "inbound", none, none, none, some "555", none⟩⟩
          ⟨⟨[], 0⟩, false, false⟩).2.2).2.2.db.records.countP
      (fun r => decide (r.fields.call_id = some "c1")) = 1 :=
  C2_duplicate_delivery _ _ _ _ _ _ _ (by decide) (by decide) (by decide)
    (by decide) (by simp) (by simp) rfl rfl
